import Mathlib

/-!
# Web application monitor: the timer loop, the check and the update

A shallow embedding of `x7kg_design_a_automa.go`.

The program talks to the outside world through `time.Now`, `http.Get`,
`log.Printf`, `Body.Close`, `WriteMessage`, `time.NewTicker` and two channels.
Everything the outside world hands back on one tick is collected in a
`TickInput`; everything the program does to the outside world is recorded as
an `Event`.  A Go function that may panic returns a `Run`: the events it
performed and whether it ended by panicking.
-/

namespace WebAppMonitoring

/-! ## Values of the standard library used by the program -/

/-- Go's `http.StatusOK`. -/
def StatusOK : Int := 200

/-- The websocket package's `TextMessage` message type. -/
def TextMessage : Int := 1

/-- Smallest value of a `time.Duration` (an int64 count of nanoseconds). -/
def minDuration : Int := -(2 ^ 63)

/-- Largest value of a `time.Duration`. -/
def maxDuration : Int := 2 ^ 63 - 1

/-- Two's complement wrap-around of an integer to int64. -/
def wrapInt64 (x : Int) : Int := (x + 2 ^ 63) % 2 ^ 64 - 2 ^ 63

/-- Go's `time.subMono`: the difference of two monotonic clock readings as a
`time.Duration`, saturating when the difference does not fit. -/
def subMono (t u : Int) : Int :=
  let d := wrapInt64 (t - u)
  if d < 0 ∧ t > u then maxDuration
  else if d > 0 ∧ t < u then minDuration
  else d

/-- A reading of Go's monotonic clock: nanoseconds since process start,
held in an int64. -/
def MonoReading (x : Int) : Prop := 0 ≤ x ∧ x < 2 ^ 63

instance (x : Int) : Decidable (MonoReading x) := by
  unfold MonoReading; infer_instance

/-- The loop of Go's `fmtFrac`: peel `k` decimal digits off `v`, keeping them
from the first non-zero one on. -/
def fmtFracLoop : Nat → Nat → Bool → List Char → List Char × Nat × Bool
  | 0, v, pr, acc => (acc, v, pr)
  | k + 1, v, pr, acc =>
    let digit := v % 10
    let pr2 := pr || digit != 0
    fmtFracLoop k (v / 10) pr2 (if pr2 then Nat.digitChar digit :: acc else acc)

/-- Go's `fmtFrac`: the fraction `v / 10^prec` written in front of `tail`
(trailing zeros and a bare decimal point omitted), with the integer part that
is left. -/
def fmtFrac (tail : List Char) (v : Nat) (prec : Nat) : List Char × Nat :=
  let r := fmtFracLoop prec v false tail
  (if r.2.2 then '.' :: r.1 else r.1, r.2.1)

/-- Go's `fmtInt`: the decimal digits of `v` written in front of `tail`. -/
def fmtInt (tail : List Char) (v : Nat) : List Char :=
  Nat.toDigits 10 v ++ tail

/-- Go's `time.Duration.String`, which is what the `%v` verb prints for a
duration: `0s`, `50ms`, `1.5s`, `1h2m3s`, ... -/
def durationString (d : Int) : String :=
  let u := d.natAbs
  let body : List Char :=
    if u < 1000000000 then
      if u = 0 then ['0', 's']
      else if u < 1000 then
        let r := fmtFrac ['n', 's'] u 0
        fmtInt r.1 r.2
      else if u < 1000000 then
        let r := fmtFrac ['µ', 's'] u 3
        fmtInt r.1 r.2
      else
        let r := fmtFrac ['m', 's'] u 6
        fmtInt r.1 r.2
    else
      let r := fmtFrac ['s'] u 9
      let secs := r.2
      let w := fmtInt r.1 (secs % 60)
      let mins := secs / 60
      if mins > 0 then
        let w2 := fmtInt ('m' :: w) (mins % 60)
        let hours := mins / 60
        if hours > 0 then fmtInt ('h' :: w2) hours else w2
      else w
  String.mk (if d < 0 then '-' :: body else body)

/-! ## Data model -/

/-- The monitor: `URL`, `Interval` (a `time.Duration`, nanoseconds) and
`WsConn`, a pointer to a websocket connection (`none` is the nil pointer,
`some c` the connection with handle `c`). -/
structure WebAppMonitor where
  URL : String
  Interval : Int
  WsConn : Option Nat
  deriving DecidableEq, Repr

/-- The part of `http.Response` the program reads.  By the contract of
`http.Get` the `Body` of a response returned without error is never nil, so
closing it cannot panic. -/
structure Response where
  StatusCode : Int
  deriving DecidableEq, Repr

/-- What the outside world returns during one call of `checkWebApp`:
`start` is the clock reading of `time.Now()`, `resp` and `err` are the two
results of `http.Get`, `finish` is the clock reading taken by `time.Since`,
and `writeErr` is the error returned by `WriteMessage` (`none` is nil). -/
structure TickInput where
  start : Int
  resp : Option Response
  err : Option String
  finish : Int
  writeErr : Option String
  deriving DecidableEq, Repr

/-- The effects the program has on the outside world. -/
inductive Event where
  | httpGet (url : String)
  | logPrintf (line : String)
  | writeMessage (conn : Nat) (messageType : Int) (data : String)
  | bodyClose
  | tickerStop (loop : Nat)
  deriving DecidableEq, Repr

/-- The outcome of running a Go function: the events in order, and whether
the function ended in a panic. -/
structure Run where
  trace : List Event
  panicked : Bool
  deriving DecidableEq, Repr

/-! ## The program -/

/-- `NewWebAppMonitor` (lines 23-29). -/
def NewWebAppMonitor (url : String) (interval : Int) (wsConn : Option Nat) : WebAppMonitor :=
  ⟨url, interval, wsConn⟩

/-- The text built by `"Web app responded in %v"` (lines 62 and 68). -/
def respondedText (fmt : Int → String) (duration : Int) : String :=
  "Web app responded in " ++ fmt duration

/-- `sendUpdate` (lines 67-70).  The message is formatted and written as one
text message; the error `WriteMessage` returns is dropped.  A nil `WsConn`
panics inside `WriteMessage`. -/
def sendUpdate (fmt : Int → String) (m : WebAppMonitor) (duration : Int)
    (_writeErr : Option String) : Run :=
  let message := respondedText fmt duration
  match m.WsConn with
  | none => ⟨[], true⟩
  | some c => ⟨[Event.writeMessage c TextMessage message], false⟩

/-- `checkWebApp` (lines 49-64).  The deferred `resp.Body.Close()` runs when
the function leaves after the `defer` statement, by return or by panic. -/
def checkWebApp (fmt : Int → String) (m : WebAppMonitor) (input : TickInput) : Run :=
  let start := input.start
  let get := Event.httpGet m.URL
  match input.err with
  | some e => ⟨[get, Event.logPrintf ("Error checking web app: " ++ e)], false⟩
  | none =>
    match input.resp with
    | none => ⟨[get], true⟩
    | some resp =>
      let body : Run :=
        if resp.StatusCode ≠ StatusOK then
          ⟨[Event.logPrintf ("Web app returned status code " ++ toString resp.StatusCode)], false⟩
        else
          let duration := subMono input.finish start
          let sent := sendUpdate fmt m duration input.writeErr
          ⟨Event.logPrintf (respondedText fmt duration) :: sent.trace, sent.panicked⟩
      ⟨get :: (body.trace ++ [Event.bodyClose]), body.panicked⟩

/-! ## The goroutine started by `StartMonitoring` -/

/-- The state of one timer loop: `quitReady` says whether a receive from the
loop's `quit` channel can proceed (a sender is waiting or the channel is
closed); `returned` says whether the goroutine has left its `for` loop. -/
structure Loop where
  quitReady : Bool
  returned : Bool
  deriving DecidableEq, Repr

/-- The whole process: the loops started so far, the events so far, and
whether a panic has ended the process. -/
structure Process where
  loops : List Loop
  trace : List Event
  panicked : Bool
  deriving DecidableEq, Repr

/-- The process before the first call of `StartMonitoring`. -/
def Process.init : Process := ⟨[], [], false⟩

/-- The case a `select` statement of a loop takes (lines 37-43): a tick
received from `ticker.C`, with what the outside world returns during the
check, or a receive from `quit`. -/
inductive Select where
  | tickerC (input : TickInput)
  | quit
  deriving DecidableEq, Repr

/-- One pass through the body of the `for` loop (lines 36-44) of loop number
`id`: the events of the pass, and whether the goroutine returns. -/
def loopIteration (fmt : Int → String) (m : WebAppMonitor) (id : Nat) : Select → Run × Bool
  | Select.tickerC input => (checkWebApp fmt m input, false)
  | Select.quit => (⟨[Event.tickerStop id], false⟩, true)

/-- `StartMonitoring` (lines 32-46): `time.NewTicker` panics unless the
interval is positive; otherwise a fresh `quit` channel is made, on which
nothing is waiting, and a new goroutine running the loop is started. -/
def StartMonitoring (m : WebAppMonitor) (p : Process) : Process :=
  if m.Interval ≤ 0 then ⟨p.loops, p.trace, true⟩
  else ⟨p.loops ++ [⟨false, false⟩], p.trace, p.panicked⟩

/-- Whether a case of the `select` of loop `l` can be taken: a loop that has
returned takes none, and the `quit` case needs the channel to be ready. -/
def Loop.ready (l : Loop) : Select → Bool
  | Select.tickerC _ => !l.returned
  | Select.quit => !l.returned && l.quitReady

/-- What can happen in the process: the program calls `StartMonitoring` on the
monitor, or loop number `loop` takes a case of its `select`.  The program has
no statement that sends on or closes a `quit` channel, so there is no step
that makes one ready. -/
inductive Step where
  | callStartMonitoring
  | select (loop : Nat) (s : Select)
  deriving DecidableEq, Repr

/-- One step of the process.  A panic in any goroutine ends the process; a
`select` case that is not ready is not taken. -/
def step (fmt : Int → String) (m : WebAppMonitor) (p : Process) : Step → Process
  | Step.callStartMonitoring => if p.panicked then p else StartMonitoring m p
  | Step.select i s =>
    if p.panicked then p
    else
      match p.loops[i]? with
      | none => p
      | some l =>
        if l.ready s then
          let r := loopIteration fmt m i s
          ⟨if r.2 then p.loops.set i ⟨l.quitReady, true⟩ else p.loops,
            p.trace ++ r.1.trace, r.1.panicked⟩
        else p

/-- The process after a sequence of steps from the start. -/
def run (fmt : Int → String) (m : WebAppMonitor) (steps : List Step) : Process :=
  steps.foldl (step fmt m) Process.init

/-- The steps in which loop `i` receives one tick per element of `inputs`. -/
def ticks (i : Nat) (inputs : List TickInput) : List Step :=
  inputs.map (fun input => Step.select i (Select.tickerC input))

/-! ## Observations on traces -/

/-- The messages handed to the websocket connection, in order: connection,
message type and text. -/
def deliveries : List Event → List (Nat × Int × String)
  | [] => []
  | Event.writeMessage c ty data :: rest => (c, ty, data) :: deliveries rest
  | _ :: rest => deliveries rest

/-- The lines handed to the logger, in order. -/
def logLines : List Event → List String
  | [] => []
  | Event.logPrintf line :: rest => line :: logLines rest
  | _ :: rest => logLines rest

/-- The number of loops that have not returned. -/
def activeLoops (p : Process) : Nat :=
  (p.loops.filter (fun l => !l.returned)).length

/-- The number of calls of `StartMonitoring` in a sequence of steps. -/
def startCalls (steps : List Step) : Nat :=
  steps.count Step.callStartMonitoring

/-- The latency `checkWebApp` measures on a tick: `time.Since(start)`. -/
def latency (input : TickInput) : Int :=
  subMono input.finish input.start

/-- The events of checking the ticks of `inputs` one after the other. -/
def checkAll (fmt : Int → String) (m : WebAppMonitor) : List TickInput → List Event
  | [] => []
  | input :: rest => (checkWebApp fmt m input).trace ++ checkAll fmt m rest

/-- A tick on which the GET returns a response with status 200 and no error. -/
def isSuccess (input : TickInput) : Bool :=
  input.err.isNone && (input.resp.map (fun r => r.StatusCode)) == some StatusOK

/-- The contract of `http.Get`: when the error is nil the response is not. -/
def getSound (input : TickInput) : Bool :=
  input.err.isSome || input.resp.isSome

/-- The line one tick leaves in the log: the error line when the GET failed,
the status line when the status is not 200, the success line when it is 200,
and none when the check panics on a nil response before logging. -/
def loggedLine (fmt : Int → String) (input : TickInput) : Option String :=
  match input.err, input.resp with
  | some e, _ => some ("Error checking web app: " ++ e)
  | none, none => none
  | none, some r =>
    if r.StatusCode = StatusOK then some (respondedText fmt (latency input))
    else some ("Web app returned status code " ++ toString r.StatusCode)

/-! ## Concrete monitors and ticks used in the examples -/

/-- The monitor built in `main`: `https://example.com`, every 10 seconds, on
connection 0. -/
def exampleMonitor : WebAppMonitor :=
  NewWebAppMonitor "https://example.com" 10000000000 (some 0)

/-- A tick answered with status `code` after 50 ms, whose write succeeds. -/
def tickStatus (code : Int) : TickInput :=
  ⟨1000, some ⟨code⟩, none, 50001000, none⟩

/-- A tick whose GET fails with a transport error and returns no response. -/
def tickRefused : TickInput :=
  ⟨1000, none, some "dial tcp: connection refused", 2000, none⟩

/-- A tick answered with status 200 after 50 ms, whose write fails. -/
def tickWriteFails : TickInput :=
  ⟨1000, some ⟨200⟩, none, 50001000, some "write: broken pipe"⟩

/-! ## The clock -/

theorem subMono_eq_sub (t u : Int) (ht : MonoReading t) (hu : MonoReading u) :
    subMono t u = t - u := by
  unfold MonoReading at ht hu
  unfold subMono wrapInt64 maxDuration minDuration
  simp only []
  have hw : (t - u + 2 ^ 63) % 2 ^ 64 - 2 ^ 63 = t - u := by omega
  rw [hw]
  split_ifs <;> omega

theorem latency_eq (input : TickInput) (hs : MonoReading input.start)
    (hf : MonoReading input.finish) : latency input = input.finish - input.start :=
  subMono_eq_sub _ _ hf hs

/-! ## One call of `checkWebApp` -/

theorem checkWebApp_success (fmt : Int → String) (m : WebAppMonitor) (input : TickInput)
    (r : Response) (c : Nat) (hconn : m.WsConn = some c) (herr : input.err = none)
    (hresp : input.resp = some r) (h200 : r.StatusCode = StatusOK) :
    checkWebApp fmt m input =
      ⟨[Event.httpGet m.URL,
        Event.logPrintf (respondedText fmt (latency input)),
        Event.writeMessage c TextMessage (respondedText fmt (latency input)),
        Event.bodyClose], false⟩ := by
  simp [checkWebApp, sendUpdate, latency, herr, hresp, h200, hconn]

theorem checkWebApp_status (fmt : Int → String) (m : WebAppMonitor) (input : TickInput)
    (r : Response) (herr : input.err = none) (hresp : input.resp = some r)
    (hcode : r.StatusCode ≠ StatusOK) :
    checkWebApp fmt m input =
      ⟨[Event.httpGet m.URL,
        Event.logPrintf ("Web app returned status code " ++ toString r.StatusCode),
        Event.bodyClose], false⟩ := by
  simp [checkWebApp, herr, hresp, hcode]

theorem checkWebApp_error (fmt : Int → String) (m : WebAppMonitor) (input : TickInput)
    (e : String) (herr : input.err = some e) :
    checkWebApp fmt m input =
      ⟨[Event.httpGet m.URL, Event.logPrintf ("Error checking web app: " ++ e)], false⟩ := by
  simp [checkWebApp, herr]

theorem deliveries_append (a b : List Event) :
    deliveries (a ++ b) = deliveries a ++ deliveries b := by
  induction a with
  | nil => rfl
  | cons e rest ih => cases e <;> simp [deliveries, ih]

theorem deliveries_checkWebApp (fmt : Int → String) (m : WebAppMonitor) (c : Nat)
    (hconn : m.WsConn = some c) (input : TickInput) :
    deliveries (checkWebApp fmt m input).trace =
      if isSuccess input then [(c, TextMessage, respondedText fmt (latency input))] else [] := by
  obtain ⟨start, resp, err, finish, writeErr⟩ := input
  cases err with
  | some e => simp [checkWebApp, isSuccess, deliveries]
  | none =>
    cases resp with
    | none => simp [checkWebApp, isSuccess, deliveries]
    | some r =>
      by_cases hcode : r.StatusCode = StatusOK
      · simp [checkWebApp, sendUpdate, isSuccess, deliveries, latency, hcode, hconn]
      · simp [checkWebApp, isSuccess, deliveries, hcode]

theorem deliveries_checkAll (fmt : Int → String) (m : WebAppMonitor) (c : Nat)
    (hconn : m.WsConn = some c) (inputs : List TickInput) :
    deliveries (checkAll fmt m inputs) =
      (inputs.filter isSuccess).map
        (fun input => (c, TextMessage, respondedText fmt (latency input))) := by
  induction inputs with
  | nil => rfl
  | cons x rest ih =>
    rw [checkAll, deliveries_append, ih, deliveries_checkWebApp fmt m c hconn]
    cases hx : isSuccess x <;> simp [List.filter, hx]

theorem count_httpGet_checkWebApp (fmt : Int → String) (m : WebAppMonitor)
    (input : TickInput) :
    (checkWebApp fmt m input).trace.count (Event.httpGet m.URL) = 1 := by
  obtain ⟨start, resp, err, finish, writeErr⟩ := input
  cases err with
  | some e => simp [checkWebApp, List.count_cons]
  | none =>
    cases resp with
    | none => simp [checkWebApp, List.count_cons]
    | some r =>
      by_cases hcode : r.StatusCode = StatusOK
      · cases hconn : m.WsConn <;>
          simp [checkWebApp, sendUpdate, hcode, hconn, List.count_cons]
      · simp [checkWebApp, hcode, List.count_cons]

theorem count_httpGet_checkAll (fmt : Int → String) (m : WebAppMonitor)
    (inputs : List TickInput) :
    (checkAll fmt m inputs).count (Event.httpGet m.URL) = inputs.length := by
  induction inputs with
  | nil => rfl
  | cons x rest ih =>
    rw [checkAll, List.count_append, ih, count_httpGet_checkWebApp]
    simp [Nat.add_comm]

theorem checkWebApp_no_panic (fmt : Int → String) (m : WebAppMonitor) (c : Nat)
    (hconn : m.WsConn = some c) (input : TickInput) (hsound : getSound input = true) :
    (checkWebApp fmt m input).panicked = false := by
  obtain ⟨start, resp, err, finish, writeErr⟩ := input
  cases err with
  | some e => simp [checkWebApp]
  | none =>
    cases resp with
    | none => simp [getSound] at hsound
    | some r =>
      by_cases hcode : r.StatusCode = StatusOK
      · simp [checkWebApp, sendUpdate, hcode, hconn]
      · simp [checkWebApp, hcode]

theorem isSuccess_sound (input : TickInput) (h : isSuccess input = true) :
    getSound input = true := by
  obtain ⟨start, resp, err, finish, writeErr⟩ := input
  cases err <;> cases resp <;> simp_all [isSuccess, getSound]

theorem logLines_append (a b : List Event) :
    logLines (a ++ b) = logLines a ++ logLines b := by
  induction a with
  | nil => rfl
  | cons e rest ih => cases e <;> simp [logLines, ih]

theorem logLines_checkWebApp (fmt : Int → String) (m : WebAppMonitor) (input : TickInput) :
    logLines (checkWebApp fmt m input).trace = (loggedLine fmt input).toList := by
  obtain ⟨start, resp, err, finish, writeErr⟩ := input
  cases err with
  | some e => simp [checkWebApp, loggedLine, logLines]
  | none =>
    cases resp with
    | none => simp [checkWebApp, loggedLine, logLines]
    | some r =>
      by_cases hcode : r.StatusCode = StatusOK
      · cases hconn : m.WsConn <;>
          simp [checkWebApp, sendUpdate, loggedLine, logLines, latency, hcode, hconn]
      · simp [checkWebApp, loggedLine, logLines, hcode]

theorem logLines_checkAll (fmt : Int → String) (m : WebAppMonitor)
    (inputs : List TickInput) :
    logLines (checkAll fmt m inputs) = inputs.filterMap (loggedLine fmt) := by
  induction inputs with
  | nil => rfl
  | cons x rest ih =>
    rw [checkAll, logLines_append, ih, logLines_checkWebApp]
    cases hx : loggedLine fmt x <;> simp [List.filterMap_cons, hx]

theorem loggedLine_isSome (fmt : Int → String) (input : TickInput)
    (hsound : getSound input = true) : (loggedLine fmt input).isSome = true := by
  obtain ⟨start, resp, err, finish, writeErr⟩ := input
  cases err with
  | some e => simp [loggedLine]
  | none =>
    cases resp with
    | none => simp [getSound] at hsound
    | some r =>
      by_cases hcode : r.StatusCode = StatusOK <;> simp [loggedLine, hcode]

theorem length_filterMap_loggedLine (fmt : Int → String) (inputs : List TickInput)
    (hsound : ∀ x ∈ inputs, getSound x = true) :
    (inputs.filterMap (loggedLine fmt)).length = inputs.length := by
  induction inputs with
  | nil => rfl
  | cons x rest ih =>
    have hx := loggedLine_isSome fmt x (hsound x (List.mem_cons_self _ _))
    have hrest := ih (fun y hy => hsound y (List.mem_cons_of_mem _ hy))
    cases hl : loggedLine fmt x with
    | none => simp [hl] at hx
    | some line => simp [List.filterMap_cons, hl, hrest]

/-! ## The loop -/

theorem step_tick (fmt : Int → String) (m : WebAppMonitor) (p : Process) (i : Nat)
    (l : Loop) (input : TickInput) (hp : p.panicked = false)
    (hl : p.loops[i]? = some l) (hr : l.returned = false) :
    step fmt m p (Step.select i (Select.tickerC input)) =
      ⟨p.loops, p.trace ++ (checkWebApp fmt m input).trace,
        (checkWebApp fmt m input).panicked⟩ := by
  simp [step, hp, hl, Loop.ready, hr, loopIteration]

theorem foldl_ticks (fmt : Int → String) (m : WebAppMonitor) (c : Nat)
    (hconn : m.WsConn = some c) (i : Nat) (l : Loop) (hr : l.returned = false)
    (inputs : List TickInput) (hsound : ∀ x ∈ inputs, getSound x = true) :
    ∀ p : Process, p.panicked = false → p.loops[i]? = some l →
      (ticks i inputs).foldl (step fmt m) p =
        ⟨p.loops, p.trace ++ checkAll fmt m inputs, false⟩ := by
  induction inputs with
  | nil =>
    intro p hp _
    cases p
    simp_all [ticks, checkAll]
  | cons x rest ih =>
    intro p hp hl
    have hx : getSound x = true := hsound x (List.mem_cons_self _ _)
    have hrest : ∀ y ∈ rest, getSound y = true :=
      fun y hy => hsound y (List.mem_cons_of_mem _ hy)
    have hstep := step_tick fmt m p i l x hp hl hr
    rw [checkWebApp_no_panic fmt m c hconn x hx] at hstep
    have hfold : (ticks i (x :: rest)).foldl (step fmt m) p
        = (ticks i rest).foldl (step fmt m)
            (step fmt m p (Step.select i (Select.tickerC x))) := by
      simp [ticks]
    rw [hfold, hstep,
      ih hrest ⟨p.loops, p.trace ++ (checkWebApp fmt m x).trace, false⟩ rfl hl]
    simp [checkAll, List.append_assoc]

theorem run_start_ticks (fmt : Int → String) (m : WebAppMonitor) (c : Nat)
    (hint : 0 < m.Interval) (hconn : m.WsConn = some c) (inputs : List TickInput)
    (hsound : ∀ x ∈ inputs, getSound x = true) :
    run fmt m (Step.callStartMonitoring :: ticks 0 inputs) =
      ⟨[⟨false, false⟩], checkAll fmt m inputs, false⟩ := by
  have h0 : step fmt m Process.init Step.callStartMonitoring = ⟨[⟨false, false⟩], [], false⟩ := by
    have : ¬ m.Interval ≤ 0 := by omega
    simp [step, Process.init, StartMonitoring, this]
  unfold run
  rw [List.foldl_cons, h0,
    foldl_ticks fmt m c hconn 0 ⟨false, false⟩ rfl inputs hsound
      ⟨[⟨false, false⟩], [], false⟩ rfl rfl]
  simp

/-- No loop of the process has returned and no `quit` channel is ready. -/
def Untouched (p : Process) : Prop :=
  ∀ l ∈ p.loops, l.quitReady = false ∧ l.returned = false

theorem step_loops (fmt : Int → String) (m : WebAppMonitor) (p : Process) (s : Step)
    (hu : Untouched p) :
    (step fmt m p s).loops = p.loops ∨
      (s = Step.callStartMonitoring ∧ (step fmt m p s).panicked = false
        ∧ (step fmt m p s).loops = p.loops ++ [⟨false, false⟩]) := by
  cases s with
  | callStartMonitoring =>
    by_cases hp : p.panicked = true
    · left; simp [step, hp]
    · by_cases hi : m.Interval ≤ 0
      · left; simp [step, hp, StartMonitoring, hi]
      · right; simp [step, hp, StartMonitoring, hi]
  | select i sel =>
    left
    by_cases hp : p.panicked = true
    · simp [step, hp]
    · cases hl : p.loops[i]? with
      | none => simp [step, hp, hl]
      | some l =>
        have hmem : l ∈ p.loops := List.getElem?_mem hl
        have hq := hu l hmem
        cases sel with
        | tickerC input => simp [step, hp, hl, Loop.ready, hq.2, loopIteration]
        | quit => simp [step, hp, hl, Loop.ready, hq.1]

theorem step_start_grows (fmt : Int → String) (m : WebAppMonitor) (p : Process)
    (hnp : (step fmt m p Step.callStartMonitoring).panicked = false) :
    (step fmt m p Step.callStartMonitoring).loops = p.loops ++ [⟨false, false⟩] := by
  by_cases hp : p.panicked = true
  · simp [step, hp] at hnp
  · by_cases hi : m.Interval ≤ 0
    · simp [step, hp, StartMonitoring, hi] at hnp
    · simp [step, hp, StartMonitoring, hi]

theorem step_untouched (fmt : Int → String) (m : WebAppMonitor) (p : Process) (s : Step)
    (hu : Untouched p) : Untouched (step fmt m p s) := by
  rcases step_loops fmt m p s hu with h | ⟨_, _, h⟩
  · intro l hl
    rw [h] at hl
    exact hu l hl
  · intro l hl
    rw [h, List.mem_append] at hl
    rcases hl with hl | hl
    · exact hu l hl
    · simp at hl
      subst hl
      exact ⟨rfl, rfl⟩

theorem foldl_untouched (fmt : Int → String) (m : WebAppMonitor) (steps : List Step) :
    ∀ p : Process, Untouched p → Untouched (steps.foldl (step fmt m) p) := by
  induction steps with
  | nil => intro p hu; exact hu
  | cons s rest ih => intro p hu; exact ih _ (step_untouched fmt m p s hu)

theorem untouched_init : Untouched Process.init := by
  intro l hl
  simp [Process.init] at hl

theorem run_processes_tick (fmt : Int → String) (m : WebAppMonitor) (steps : List Step)
    (i : Nat) (input : TickInput) (hnp : (run fmt m steps).panicked = false)
    (hi : i < (run fmt m steps).loops.length) :
    step fmt m (run fmt m steps) (Step.select i (Select.tickerC input)) =
      ⟨(run fmt m steps).loops, (run fmt m steps).trace ++ (checkWebApp fmt m input).trace,
        (checkWebApp fmt m input).panicked⟩ := by
  have hu : Untouched (run fmt m steps) := foldl_untouched fmt m steps _ untouched_init
  have hl : (run fmt m steps).loops[i]? = some ((run fmt m steps).loops[i]) :=
    List.getElem?_eq_getElem hi
  exact step_tick fmt m _ i _ input hnp hl (hu _ (List.getElem?_mem hl)).2

theorem activeLoops_untouched (p : Process) (hu : Untouched p) :
    activeLoops p = p.loops.length := by
  unfold activeLoops
  rw [List.filter_eq_self.mpr]
  intro l hl
  simp [(hu l hl).2]

theorem step_panicked (fmt : Int → String) (m : WebAppMonitor) (p : Process) (s : Step)
    (hp : p.panicked = true) : step fmt m p s = p := by
  cases s <;> simp [step, hp]

theorem foldl_panicked (fmt : Int → String) (m : WebAppMonitor) (steps : List Step) :
    ∀ p : Process, p.panicked = true → steps.foldl (step fmt m) p = p := by
  induction steps with
  | nil => intro p _; rfl
  | cons s rest ih =>
    intro p hp
    rw [List.foldl_cons, step_panicked fmt m p s hp]
    exact ih p hp

theorem foldl_loops_length (fmt : Int → String) (m : WebAppMonitor) (steps : List Step) :
    ∀ p : Process, Untouched p → (steps.foldl (step fmt m) p).panicked = false →
      (steps.foldl (step fmt m) p).loops.length = p.loops.length + startCalls steps := by
  induction steps with
  | nil => intro p _ _; simp [startCalls]
  | cons s rest ih =>
    intro p hu hnp
    rw [List.foldl_cons] at hnp ⊢
    have hsp : (step fmt m p s).panicked = false := by
      by_contra hc
      have hc2 : (step fmt m p s).panicked = true := by simpa using hc
      rw [foldl_panicked fmt m rest _ hc2] at hnp
      exact hc hnp
    rw [ih _ (step_untouched fmt m p s hu) hnp]
    cases s with
    | callStartMonitoring =>
      rw [step_start_grows fmt m p hsp]
      simp [startCalls, List.count_cons]
      omega
    | select i sel =>
      rcases step_loops fmt m p (Step.select i sel) hu with h | ⟨h, _, _⟩
      · rw [h]
        simp [startCalls, List.count_cons]
      · cases h

/-- C2: when the GET returns no error and status 200, `checkWebApp` logs and
sends the success text for the latency `time.Since(start)`; that latency is
the clock reading taken after the response minus the reading taken before the
request, and it is not negative when the clock did not go back. -/
theorem checkWebApp_ok_measures_latency (fmt : Int → String) (m : WebAppMonitor)
    (input : TickInput) (r : Response) (c : Nat) (hconn : m.WsConn = some c)
    (herr : input.err = none) (hresp : input.resp = some r)
    (h200 : r.StatusCode = StatusOK)
    (hs : MonoReading input.start) (hf : MonoReading input.finish) :
    checkWebApp fmt m input =
      ⟨[Event.httpGet m.URL,
        Event.logPrintf (respondedText fmt (latency input)),
        Event.writeMessage c TextMessage (respondedText fmt (latency input)),
        Event.bodyClose], false⟩
    ∧ latency input = input.finish - input.start
    ∧ (input.start ≤ input.finish → 0 ≤ latency input) := by
  refine ⟨checkWebApp_success fmt m input r c hconn herr hresp h200,
    latency_eq input hs hf, fun h => ?_⟩
  rw [latency_eq input hs hf]
  omega

set_option maxRecDepth 100000 in
theorem checkWebApp_ok_measures_latency_witness :
    checkWebApp durationString exampleMonitor (tickStatus 200) =
      ⟨[Event.httpGet "https://example.com",
        Event.logPrintf "Web app responded in 50ms",
        Event.writeMessage 0 1 "Web app responded in 50ms",
        Event.bodyClose], false⟩
    ∧ latency (tickStatus 200) = 50001000 - 1000
    ∧ 0 ≤ latency (tickStatus 200) := by
  have h := checkWebApp_ok_measures_latency durationString exampleMonitor (tickStatus 200)
    ⟨200⟩ 0 rfl rfl rfl rfl (by decide) (by decide)
  refine ⟨?_, h.2.1, h.2.2 (by decide)⟩
  decide

/-- C3, as stated, fails: on status 404 the only text `checkWebApp` produces
is the log line `Web app returned status code 404`; the detail text
`unexpected status` occurs in no line it logs, and nothing is written to the
connection. -/
theorem status404_yields_no_unexpected_status_detail :
    checkWebApp durationString exampleMonitor (tickStatus 404) =
      ⟨[Event.httpGet "https://example.com",
        Event.logPrintf "Web app returned status code 404",
        Event.bodyClose], false⟩
    ∧ (¬ ∃ line ∈ logLines (checkWebApp durationString exampleMonitor (tickStatus 404)).trace,
        "unexpected status".toList <:+: line.toList)
    ∧ deliveries (checkWebApp durationString exampleMonitor (tickStatus 404)).trace = [] := by
  refine ⟨by decide, ?_, by decide⟩
  have h : logLines (checkWebApp durationString exampleMonitor (tickStatus 404)).trace
      = ["Web app returned status code 404"] := by decide
  rw [h]
  decide

/-- C3, amended: for every status code `c` other than 200 returned by the GET,
`checkWebApp` records the failure as the single log line
`Web app returned status code c`, closes the body, writes nothing to the
connection and returns without panic. -/
theorem checkWebApp_non200_logs_status (fmt : Int → String) (m : WebAppMonitor)
    (input : TickInput) (r : Response) (herr : input.err = none)
    (hresp : input.resp = some r) (hcode : r.StatusCode ≠ StatusOK) :
    checkWebApp fmt m input =
      ⟨[Event.httpGet m.URL,
        Event.logPrintf ("Web app returned status code " ++ toString r.StatusCode),
        Event.bodyClose], false⟩
    ∧ logLines (checkWebApp fmt m input).trace
        = ["Web app returned status code " ++ toString r.StatusCode]
    ∧ deliveries (checkWebApp fmt m input).trace = [] := by
  rw [checkWebApp_status fmt m input r herr hresp hcode]
  simp [logLines, deliveries]

theorem checkWebApp_non200_logs_status_witness :
    checkWebApp durationString exampleMonitor (tickStatus 404) =
      ⟨[Event.httpGet exampleMonitor.URL,
        Event.logPrintf ("Web app returned status code " ++ toString (404 : Int)),
        Event.bodyClose], false⟩
    ∧ logLines (checkWebApp durationString exampleMonitor (tickStatus 404)).trace
        = ["Web app returned status code " ++ toString (404 : Int)]
    ∧ deliveries (checkWebApp durationString exampleMonitor (tickStatus 404)).trace = [] :=
  checkWebApp_non200_logs_status durationString exampleMonitor (tickStatus 404) ⟨404⟩
    rfl rfl (by decide)

/-- C4: for every transport error returned by the GET, `checkWebApp` returns
without panic, whatever the response pointer is (nil included); the failure it
records is the log line made of `Error checking web app: ` and the error's
message, which carries no status code, and nothing else happens after the
GET. -/
theorem checkWebApp_transport_error (fmt : Int → String) (m : WebAppMonitor)
    (input : TickInput) (e : String) (herr : input.err = some e) :
    checkWebApp fmt m input =
      ⟨[Event.httpGet m.URL, Event.logPrintf ("Error checking web app: " ++ e)], false⟩
    ∧ (checkWebApp fmt m input).panicked = false
    ∧ logLines (checkWebApp fmt m input).trace = ["Error checking web app: " ++ e]
    ∧ ∀ resp : Option Response,
        checkWebApp fmt m ⟨input.start, resp, input.err, input.finish, input.writeErr⟩
          = checkWebApp fmt m input := by
  refine ⟨checkWebApp_error fmt m input e herr, ?_, ?_, fun resp => ?_⟩
  · rw [checkWebApp_error fmt m input e herr]
  · rw [checkWebApp_error fmt m input e herr]
    simp [logLines]
  · rw [checkWebApp_error fmt m input e herr]
    exact checkWebApp_error fmt m _ e herr

theorem checkWebApp_transport_error_witness :
    checkWebApp durationString exampleMonitor tickRefused =
      ⟨[Event.httpGet "https://example.com",
        Event.logPrintf "Error checking web app: dial tcp: connection refused"], false⟩ := by
  have h := checkWebApp_transport_error durationString exampleMonitor tickRefused
    "dial tcp: connection refused" rfl
  rw [h.1]
  decide

/-- C9: for every measured latency `d`, `sendUpdate` writes exactly one
message, of type text, whose data is `Web app responded in ` followed by the
formatted `d`; on a tick answered with 200 that data is the very line
`checkWebApp` logs. -/
theorem sendUpdate_message_text (fmt : Int → String) (m : WebAppMonitor) (c : Nat)
    (input : TickInput) (r : Response) (hconn : m.WsConn = some c)
    (herr : input.err = none) (hresp : input.resp = some r)
    (h200 : r.StatusCode = StatusOK) :
    (∀ (d : Int) (writeErr : Option String),
        sendUpdate fmt m d writeErr
          = ⟨[Event.writeMessage c TextMessage ("Web app responded in " ++ fmt d)], false⟩)
    ∧ deliveries (checkWebApp fmt m input).trace
        = [(c, TextMessage, "Web app responded in " ++ fmt (latency input))]
    ∧ logLines (checkWebApp fmt m input).trace
        = ["Web app responded in " ++ fmt (latency input)] := by
  refine ⟨fun d writeErr => by simp [sendUpdate, respondedText, hconn], ?_, ?_⟩
  · rw [checkWebApp_success fmt m input r c hconn herr hresp h200]
    simp [deliveries, respondedText]
  · rw [checkWebApp_success fmt m input r c hconn herr hresp h200]
    simp [logLines, respondedText]

set_option maxRecDepth 100000 in
theorem sendUpdate_message_text_witness :
    sendUpdate durationString exampleMonitor 50000000 none
        = ⟨[Event.writeMessage 0 1 "Web app responded in 50ms"], false⟩
    ∧ deliveries (checkWebApp durationString exampleMonitor (tickStatus 200)).trace
        = [(0, 1, "Web app responded in 50ms")]
    ∧ logLines (checkWebApp durationString exampleMonitor (tickStatus 200)).trace
        = ["Web app responded in 50ms"] := by
  have h := sendUpdate_message_text durationString exampleMonitor 0 (tickStatus 200) ⟨200⟩
    rfl rfl rfl rfl
  refine ⟨?_, ?_, ?_⟩
  · rw [h.1]; decide
  · rw [h.2.1]; decide
  · rw [h.2.2]; decide

/-- C10: the trace of `checkWebApp` holds exactly one body close when the GET
returned a response without error (whatever the status, and also when the
write panics), as its last event, and none otherwise; when the GET returned an
error the outcome does not depend on the response pointer, so a nil response
is never touched. -/
theorem checkWebApp_closes_body_once (fmt : Int → String) (m : WebAppMonitor)
    (input : TickInput) :
    (checkWebApp fmt m input).trace.count Event.bodyClose
        = (if input.err.isNone && input.resp.isSome then 1 else 0)
    ∧ ((input.err.isNone && input.resp.isSome) = true →
        (checkWebApp fmt m input).trace.getLast? = some Event.bodyClose)
    ∧ (input.err.isSome = true →
        (checkWebApp fmt m input).panicked = false
        ∧ ∀ resp : Option Response,
            checkWebApp fmt m ⟨input.start, resp, input.err, input.finish, input.writeErr⟩
              = checkWebApp fmt m input) := by
  obtain ⟨start, resp, err, finish, writeErr⟩ := input
  cases err with
  | some e => simp [checkWebApp]
  | none =>
    cases resp with
    | none => simp [checkWebApp]
    | some r =>
      by_cases hcode : r.StatusCode = StatusOK
      · cases hconn : m.WsConn <;>
          simp [checkWebApp, sendUpdate, hcode, hconn, List.count_cons, List.getLast?_cons_cons]
      · simp [checkWebApp, hcode, List.count_cons, List.getLast?_cons_cons]

set_option maxRecDepth 100000 in
theorem checkWebApp_closes_body_once_witness :
    (checkWebApp durationString exampleMonitor (tickStatus 200)).trace.count Event.bodyClose = 1
    ∧ (checkWebApp durationString exampleMonitor (tickStatus 500)).trace.getLast?
        = some Event.bodyClose
    ∧ (checkWebApp durationString exampleMonitor tickRefused).trace.count Event.bodyClose = 0
    ∧ (checkWebApp durationString exampleMonitor tickRefused).panicked = false := by
  refine ⟨?_, ?_, ?_, ?_⟩
  · rw [(checkWebApp_closes_body_once durationString exampleMonitor (tickStatus 200)).1]; decide
  · exact (checkWebApp_closes_body_once durationString exampleMonitor (tickStatus 500)).2.1
      (by decide)
  · rw [(checkWebApp_closes_body_once durationString exampleMonitor tickRefused).1]; decide
  · exact ((checkWebApp_closes_body_once durationString exampleMonitor tickRefused).2.2
      (by decide)).1

/-! ## Claims about the loop -/

/-- C1, as stated, fails: with outcomes 200, 500, 200 on three ticks the loop
checks three times and logs three lines, but only two messages reach the
connection; the failure on the second tick is logged, not delivered. -/
theorem alternating_ticks_deliver_only_successes :
    deliveries (run durationString exampleMonitor
        (Step.callStartMonitoring :: ticks 0 [tickStatus 200, tickStatus 500, tickStatus 200])).trace
      = [(0, 1, "Web app responded in 50ms"), (0, 1, "Web app responded in 50ms")]
    ∧ logLines (run durationString exampleMonitor
        (Step.callStartMonitoring :: ticks 0 [tickStatus 200, tickStatus 500, tickStatus 200])).trace
      = ["Web app responded in 50ms", "Web app returned status code 500",
          "Web app responded in 50ms"]
    ∧ (deliveries (run durationString exampleMonitor
        (Step.callStartMonitoring :: ticks 0 [tickStatus 200, tickStatus 500, tickStatus 200])).trace).length
      ≠ [tickStatus 200, tickStatus 500, tickStatus 200].length := by
  set_option maxRecDepth 100000 in decide

/-- C1, amended: for every finite sequence of ticks received by a started loop
and every outcome of the GET on them, each tick is checked once and leaves one
line in the log, in tick order: the success line, the status line or the
error line.  The messages written to the connection are the success messages
of the ticks answered with 200, one per such tick, in tick order; a tick with
another status or a transport error is only logged and delivers nothing. -/
theorem loop_delivers_successes_in_tick_order (fmt : Int → String) (m : WebAppMonitor)
    (c : Nat) (inputs : List TickInput) (hint : 0 < m.Interval)
    (hconn : m.WsConn = some c) (hsound : ∀ x ∈ inputs, getSound x = true) :
    deliveries (run fmt m (Step.callStartMonitoring :: ticks 0 inputs)).trace
      = (inputs.filter isSuccess).map
          (fun input => (c, TextMessage, respondedText fmt (latency input)))
    ∧ (run fmt m (Step.callStartMonitoring :: ticks 0 inputs)).trace.count
        (Event.httpGet m.URL) = inputs.length
    ∧ logLines (run fmt m (Step.callStartMonitoring :: ticks 0 inputs)).trace
      = inputs.filterMap (fun input =>
          match input.err, input.resp with
          | some e, _ => some ("Error checking web app: " ++ e)
          | none, none => none
          | none, some r =>
            if r.StatusCode = StatusOK then
              some ("Web app responded in " ++ fmt (subMono input.finish input.start))
            else some ("Web app returned status code " ++ toString r.StatusCode))
    ∧ (logLines (run fmt m (Step.callStartMonitoring :: ticks 0 inputs)).trace).length
      = inputs.length := by
  rw [run_start_ticks fmt m c hint hconn inputs hsound]
  refine ⟨deliveries_checkAll fmt m c hconn inputs, count_httpGet_checkAll fmt m inputs,
    logLines_checkAll fmt m inputs, ?_⟩
  rw [logLines_checkAll fmt m inputs]
  exact length_filterMap_loggedLine fmt inputs hsound

set_option maxRecDepth 100000 in
theorem loop_delivers_successes_in_tick_order_witness :
    deliveries (run durationString exampleMonitor
        (Step.callStartMonitoring :: ticks 0 [tickStatus 200, tickStatus 500, tickStatus 200])).trace
      = [(0, 1, "Web app responded in 50ms"), (0, 1, "Web app responded in 50ms")]
    ∧ (run durationString exampleMonitor
        (Step.callStartMonitoring :: ticks 0 [tickStatus 200, tickStatus 500, tickStatus 200])).trace.count
        (Event.httpGet "https://example.com") = 3
    ∧ logLines (run durationString exampleMonitor
        (Step.callStartMonitoring :: ticks 0 [tickStatus 200, tickStatus 500, tickStatus 200])).trace
      = ["Web app responded in 50ms", "Web app returned status code 500",
          "Web app responded in 50ms"] := by
  have h := loop_delivers_successes_in_tick_order durationString exampleMonitor 0
    [tickStatus 200, tickStatus 500, tickStatus 200] (by decide) rfl (by decide)
  refine ⟨?_, h.2.1, ?_⟩
  · rw [h.1]; decide
  · rw [h.2.2.1]; decide

/-- C5, as stated, fails: two calls of `StartMonitoring` on the same monitor
leave two active loops. -/
theorem two_starts_two_loops :
    activeLoops (run durationString exampleMonitor
        [Step.callStartMonitoring, Step.callStartMonitoring]) = 2
    ∧ ¬ activeLoops (run durationString exampleMonitor
        [Step.callStartMonitoring, Step.callStartMonitoring]) ≤ 1 := by
  decide

/-- C5, amended: `StartMonitoring` has no guard on the monitor's state: after
any sequence of calls and timer firings that did not end in a panic, the
number of active loops equals the number of calls of `StartMonitoring`. -/
theorem active_loops_eq_start_calls (fmt : Int → String) (m : WebAppMonitor)
    (steps : List Step) (hnp : (run fmt m steps).panicked = false) :
    activeLoops (run fmt m steps) = startCalls steps := by
  have hu : Untouched (run fmt m steps) := foldl_untouched fmt m steps _ untouched_init
  rw [activeLoops_untouched _ hu]
  have h := foldl_loops_length fmt m steps Process.init untouched_init hnp
  simpa [run, Process.init] using h

set_option maxRecDepth 100000 in
theorem active_loops_eq_start_calls_witness :
    activeLoops (run durationString exampleMonitor
      [Step.callStartMonitoring, Step.select 0 (Select.tickerC (tickStatus 200)),
        Step.callStartMonitoring, Step.select 0 Select.quit]) = 2 :=
  active_loops_eq_start_calls durationString exampleMonitor
    [Step.callStartMonitoring, Step.select 0 (Select.tickerC (tickStatus 200)),
      Step.callStartMonitoring, Step.select 0 Select.quit] (by decide)

/-- C6: the code does not do what the claim says.  The monitor of `main` is
running after `StartMonitoring` and has delivered nothing yet, but it cannot
be stopped: no sequence of further calls and `select` cases makes any of its
loops return, because nothing makes a `quit` channel ready.  As long as the
process has not panicked the loop goes on processing every tick it receives,
and a tick answered with 200 after an attempt to take the `quit` case is still
delivered. -/
theorem started_monitor_cannot_be_stopped :
    activeLoops (run durationString exampleMonitor [Step.callStartMonitoring]) = 1
    ∧ deliveries (run durationString exampleMonitor [Step.callStartMonitoring]).trace = []
    ∧ (¬ ∃ steps : List Step,
        ∃ l ∈ (run durationString exampleMonitor (Step.callStartMonitoring :: steps)).loops,
          l.returned = true)
    ∧ (∀ (steps : List Step) (input : TickInput),
        (run durationString exampleMonitor (Step.callStartMonitoring :: steps)).panicked = false →
        (step durationString exampleMonitor
            (run durationString exampleMonitor (Step.callStartMonitoring :: steps))
            (Step.select 0 (Select.tickerC input))).trace
          = (run durationString exampleMonitor (Step.callStartMonitoring :: steps)).trace
            ++ (checkWebApp durationString exampleMonitor input).trace)
    ∧ (run durationString exampleMonitor
        [Step.callStartMonitoring, Step.select 0 Select.quit,
          Step.select 0 (Select.tickerC (tickStatus 200))]).trace
      = [Event.httpGet "https://example.com",
          Event.logPrintf "Web app responded in 50ms",
          Event.writeMessage 0 1 "Web app responded in 50ms",
          Event.bodyClose] := by
  refine ⟨by decide, by decide, ?_, ?_, by set_option maxRecDepth 100000 in decide⟩
  · rintro ⟨steps, l, hl, hret⟩
    have hu := foldl_untouched durationString exampleMonitor
      (Step.callStartMonitoring :: steps) _ untouched_init
    have h := (hu l hl).2
    rw [h] at hret
    cases hret
  · intro steps input hnp
    have hlen := foldl_loops_length durationString exampleMonitor
      (Step.callStartMonitoring :: steps) Process.init untouched_init hnp
    have hpos : 0 < (run durationString exampleMonitor
        (Step.callStartMonitoring :: steps)).loops.length := by
      have hc : 1 ≤ startCalls (Step.callStartMonitoring :: steps) := by
        simp [startCalls, List.count_cons]
      unfold run
      omega
    rw [run_processes_tick durationString exampleMonitor _ 0 input hnp hpos]

/-- C7, as stated, fails: when the write of the first tick fails and the
second tick is answered with 500, the process does exactly what it does when
the write succeeds; its log holds no line about the failed write, and the
second tick, though checked, is not delivered. -/
theorem failed_write_is_not_logged :
    (run durationString exampleMonitor
        (Step.callStartMonitoring :: ticks 0 [tickWriteFails, tickStatus 500])).trace
      = [Event.httpGet "https://example.com",
          Event.logPrintf "Web app responded in 50ms",
          Event.writeMessage 0 1 "Web app responded in 50ms",
          Event.bodyClose,
          Event.httpGet "https://example.com",
          Event.logPrintf "Web app returned status code 500",
          Event.bodyClose]
    ∧ run durationString exampleMonitor
        (Step.callStartMonitoring :: ticks 0 [tickWriteFails, tickStatus 500])
      = run durationString exampleMonitor
        (Step.callStartMonitoring :: ticks 0 [tickStatus 200, tickStatus 500])
    ∧ (deliveries (run durationString exampleMonitor
        (Step.callStartMonitoring :: ticks 0 [tickWriteFails, tickStatus 500])).trace).length
      = 1 := by
  set_option maxRecDepth 100000 in decide

/-- C7, amended: on a tick answered with 200 whose write to the connection
fails, the write is attempted exactly once, and the loop keeps running: the
ticks before and after it are all checked, one GET each, and every later tick
answered with 200 is delivered, in tick order. -/
theorem failed_write_does_not_stop_loop (fmt : Int → String) (m : WebAppMonitor) (c : Nat)
    (before after : List TickInput) (x : TickInput) (r : Response) (e : String)
    (hint : 0 < m.Interval) (hconn : m.WsConn = some c)
    (hsound : ∀ y ∈ before ++ x :: after, getSound y = true)
    (herr : x.err = none) (hresp : x.resp = some r) (h200 : r.StatusCode = StatusOK)
    (_hfail : x.writeErr = some e) :
    (run fmt m (Step.callStartMonitoring :: ticks 0 (before ++ x :: after))).trace
      = checkAll fmt m before
        ++ [Event.httpGet m.URL,
            Event.logPrintf (respondedText fmt (latency x)),
            Event.writeMessage c TextMessage (respondedText fmt (latency x)),
            Event.bodyClose]
        ++ checkAll fmt m after
    ∧ (run fmt m (Step.callStartMonitoring :: ticks 0 (before ++ x :: after))).panicked = false
    ∧ activeLoops (run fmt m (Step.callStartMonitoring :: ticks 0 (before ++ x :: after))) = 1
    ∧ (checkAll fmt m after).count (Event.httpGet m.URL) = after.length
    ∧ deliveries (checkAll fmt m after)
        = (after.filter isSuccess).map
            (fun input => (c, TextMessage, respondedText fmt (latency input))) := by
  have hsplit : ∀ (a b : List TickInput),
      checkAll fmt m (a ++ b) = checkAll fmt m a ++ checkAll fmt m b := by
    intro a b
    induction a with
    | nil => rfl
    | cons y rest ih => simp [checkAll, ih, List.append_assoc]
  rw [run_start_ticks fmt m c hint hconn _ hsound]
  refine ⟨?_, rfl, rfl, count_httpGet_checkAll fmt m after,
    deliveries_checkAll fmt m c hconn after⟩
  simp only [hsplit, checkAll, checkWebApp_success fmt m x r c hconn herr hresp h200,
    List.append_assoc]

set_option maxRecDepth 100000 in
theorem failed_write_does_not_stop_loop_witness :
    (run durationString exampleMonitor
        (Step.callStartMonitoring :: ticks 0 ([tickRefused] ++ tickWriteFails :: [tickStatus 200]))).trace
      = [Event.httpGet "https://example.com",
          Event.logPrintf "Error checking web app: dial tcp: connection refused",
          Event.httpGet "https://example.com",
          Event.logPrintf "Web app responded in 50ms",
          Event.writeMessage 0 1 "Web app responded in 50ms",
          Event.bodyClose,
          Event.httpGet "https://example.com",
          Event.logPrintf "Web app responded in 50ms",
          Event.writeMessage 0 1 "Web app responded in 50ms",
          Event.bodyClose]
    ∧ deliveries (checkAll durationString exampleMonitor [tickStatus 200])
      = [(0, 1, "Web app responded in 50ms")] := by
  have h := failed_write_does_not_stop_loop durationString exampleMonitor 0
    [tickRefused] [tickStatus 200] tickWriteFails ⟨200⟩ "write: broken pipe"
    (by decide) rfl (by decide) rfl rfl rfl rfl
  refine ⟨?_, ?_⟩
  · rw [h.1]; decide
  · rw [h.2.2.2.2]; decide

/-- C8: for every `N`, if the GET of each of the first `N` ticks of a started
loop returns status 200 without error, then after those ticks exactly `N`
messages have been written to the connection, the i-th being the success text
for the latency measured on the i-th tick. -/
theorem all_ok_ticks_deliver_each_latency (fmt : Int → String) (m : WebAppMonitor) (c : Nat)
    (N : Nat) (inputs : List TickInput) (hint : 0 < m.Interval)
    (hconn : m.WsConn = some c) (hlen : inputs.length = N)
    (hok : ∀ x ∈ inputs, isSuccess x = true) :
    deliveries (run fmt m (Step.callStartMonitoring :: ticks 0 inputs)).trace
      = inputs.map (fun input => (c, TextMessage, respondedText fmt (latency input)))
    ∧ (deliveries (run fmt m (Step.callStartMonitoring :: ticks 0 inputs)).trace).length = N := by
  have hsound : ∀ x ∈ inputs, getSound x = true := fun x hx => isSuccess_sound x (hok x hx)
  have hfilter : inputs.filter isSuccess = inputs := List.filter_eq_self.mpr hok
  have hd : deliveries (run fmt m (Step.callStartMonitoring :: ticks 0 inputs)).trace
      = inputs.map (fun input => (c, TextMessage, respondedText fmt (latency input))) := by
    rw [run_start_ticks fmt m c hint hconn inputs hsound,
      deliveries_checkAll fmt m c hconn inputs, hfilter]
  refine ⟨hd, ?_⟩
  rw [hd, List.length_map, hlen]

set_option maxRecDepth 100000 in
theorem all_ok_ticks_deliver_each_latency_witness :
    deliveries (run durationString exampleMonitor
        (Step.callStartMonitoring :: ticks 0 [tickStatus 200, tickStatus 200, tickStatus 200])).trace
      = [(0, 1, "Web app responded in 50ms"), (0, 1, "Web app responded in 50ms"),
          (0, 1, "Web app responded in 50ms")]
    ∧ (deliveries (run durationString exampleMonitor
        (Step.callStartMonitoring :: ticks 0 [tickStatus 200, tickStatus 200, tickStatus 200])).trace).length
      = 3 := by
  have h := all_ok_ticks_deliver_each_latency durationString exampleMonitor 0 3
    [tickStatus 200, tickStatus 200, tickStatus 200] (by decide) rfl rfl (by decide)
  refine ⟨?_, h.2⟩
  rw [h.1]
  decide

end WebAppMonitoring
